import Mathlib

/-!
Shallow embedding of the oura-ring client library (src/oura_ring.py), the
final evolution of the library per the spec. The embedding covers the parts
the claims are about: the date / datetime normalizers `_format_dates` and
`_format_datetimes`, the pagination loop `_make_paginated_request`, the
endpoint methods `get_daily_sleep` and `get_enhanced_tag` (the two cited
document-id endpoints), and the client construction `__init__`.

Python's `date` objects are modelled as year/month/day triples of naturals
with Python's validity range (years 1..9999, proleptic Gregorian calendar);
`datetime` adds hour/minute/second (second resolution: microseconds play no
role in any claim). `date.fromisoformat` / `datetime.fromisoformat` and
`str()` serialization are modelled character by character in the canonical
`YYYY-MM-DD` (resp. `YYYY-MM-DD HH:MM:SS`) forms. Python exceptions become
an explicit `PyErr` error type carried in `Except`.
-/

namespace OuraRing

/-- Python exception values that the modelled code can raise. -/
inductive PyErr where
  | valueError (msg : String)
  | overflowError (msg : String)
  | keyError (key : String)
  | transportFailure (msg : String)
deriving Repr, DecidableEq

/-- Python `datetime.date`: a year/month/day triple. -/
structure Date where
  year : Nat
  month : Nat
  day : Nat
deriving Repr, DecidableEq

/-- Gregorian leap-year rule, as used by Python's `datetime` module. -/
def isLeapYear (y : Nat) : Bool :=
  y % 4 == 0 && (y % 100 != 0 || y % 400 == 0)

/-- Number of days in a month of a given year (Gregorian). -/
def daysInMonth (y m : Nat) : Nat :=
  if m = 2 then (if isLeapYear y then 29 else 28)
  else if m = 4 ∨ m = 6 ∨ m = 9 ∨ m = 11 then 30
  else 31

/-- Validity of a `Date`, matching the range Python's `datetime.date` accepts. -/
def Date.Valid (d : Date) : Prop :=
  1 ≤ d.year ∧ d.year ≤ 9999 ∧ 1 ≤ d.month ∧ d.month ≤ 12 ∧
    1 ≤ d.day ∧ d.day ≤ daysInMonth d.year d.month

instance (d : Date) : Decidable d.Valid := by
  unfold Date.Valid
  infer_instance

/-- Python `date` comparison (lexicographic on year, month, day): `a < b`. -/
def Date.ltb (a b : Date) : Bool :=
  a.year < b.year ||
    (a.year == b.year &&
      (a.month < b.month || (a.month == b.month && a.day < b.day)))

/-- Python `d - timedelta(days=1)`; raises `OverflowError` at the minimum date
`0001-01-01`, exactly as Python does ("date value out of range"). -/
def Date.subDay (d : Date) : Except PyErr Date :=
  if 1 < d.day then .ok ⟨d.year, d.month, d.day - 1⟩
  else if 1 < d.month then .ok ⟨d.year, d.month - 1, daysInMonth d.year (d.month - 1)⟩
  else if 1 < d.year then .ok ⟨d.year - 1, 12, 31⟩
  else .error (.overflowError "date value out of range")

/-- Two-digit zero-padded decimal rendering (as in `%02d`). -/
def pad2 (n : Nat) : List Char :=
  [Nat.digitChar (n / 10 % 10), Nat.digitChar (n % 10)]

/-- Four-digit zero-padded decimal rendering (as in `%04d`). -/
def pad4 (n : Nat) : List Char :=
  [Nat.digitChar (n / 1000 % 10), Nat.digitChar (n / 100 % 10),
    Nat.digitChar (n / 10 % 10), Nat.digitChar (n % 10)]

/-- Python `str(date)`: the canonical `YYYY-MM-DD` ISO form. -/
def Date.toIso (d : Date) : String :=
  String.mk (pad4 d.year ++ '-' :: pad2 d.month ++ '-' :: pad2 d.day)

/-- Numeric value of a decimal digit character. -/
def digitVal (c : Char) : Nat := c.toNat - 48

/-- Construction `datetime.date(y, m, d)`: field validation as in Python's
`date` constructor, raising `ValueError` on an out-of-range field. -/
def mkDate (y m dd : Nat) (s : String) : Except PyErr Date :=
  if (⟨y, m, dd⟩ : Date).Valid then .ok ⟨y, m, dd⟩
  else .error (.valueError ("invalid date: " ++ s))

/-- Python `date.fromisoformat`: parses exactly the 10-character
`YYYY-MM-DD` form and validates the calendar fields through the `date`
constructor (`mkDate`), raising `ValueError` otherwise. -/
def date_fromisoformat (s : String) : Except PyErr Date :=
  match s.toList with
  | [y1, y2, y3, y4, s1, m1, m2, s2, d1, d2] =>
    if y1.isDigit ∧ y2.isDigit ∧ y3.isDigit ∧ y4.isDigit ∧ s1 = '-' ∧
        m1.isDigit ∧ m2.isDigit ∧ s2 = '-' ∧ d1.isDigit ∧ d2.isDigit then
      mkDate (((digitVal y1 * 10 + digitVal y2) * 10 + digitVal y3) * 10 + digitVal y4)
        (digitVal m1 * 10 + digitVal m2) (digitVal d1 * 10 + digitVal d2) s
    else .error (.valueError ("Invalid isoformat string: " ++ s))
  | _ => .error (.valueError ("Invalid isoformat string: " ++ s))

/-- The resolution of the `end` argument in `_format_dates`:
`date.fromisoformat(end_date) if end_date else date.today()`.
Python tests truthiness, so `None` and the empty string both default to
`today` (the injected current local date). -/
def resolveEnd (today : Date) (end_date : Option String) : Except PyErr Date :=
  match end_date with
  | some str => if str = "" then .ok today else date_fromisoformat str
  | none => .ok today

/-- The resolution of the `start` argument in `_format_dates`:
`date.fromisoformat(start_date) if start_date else end - timedelta(days=1)`. -/
def resolveStart (e : Date) (start_date : Option String) : Except PyErr Date :=
  match start_date with
  | some str => if str = "" then Date.subDay e else date_fromisoformat str
  | none => Date.subDay e

/-- `OuraClient._format_dates`, with the implicit `date.today()` made an
explicit `today` argument. Resolves `end` first (as the source line order
does), then `start`, raises `ValueError` when `start > end` with both values
in the message, and returns both as canonical strings. -/
def _format_dates (today : Date) (start_date end_date : Option String) :
    Except PyErr (String × String) :=
  match resolveEnd today end_date with
  | .error err => .error err
  | .ok e =>
    match resolveStart e start_date with
    | .error err => .error err
    | .ok s =>
      if Date.ltb e s then
        .error (.valueError
          ("Start date greater than end date: " ++ s.toIso ++ " > " ++ e.toIso))
      else .ok (s.toIso, e.toIso)

/-- Python `datetime.datetime` at second resolution (microseconds are not
relevant to any claim). -/
structure DateTime where
  date : Date
  hour : Nat
  minute : Nat
  second : Nat
deriving Repr, DecidableEq

/-- Validity of a `DateTime`, matching Python's `datetime` field ranges. -/
def DateTime.Valid (t : DateTime) : Prop :=
  t.date.Valid ∧ t.hour ≤ 23 ∧ t.minute ≤ 59 ∧ t.second ≤ 59

instance (t : DateTime) : Decidable t.Valid := by
  unfold DateTime.Valid
  infer_instance

/-- Python `datetime` comparison (lexicographic on date then time): `a < b`. -/
def DateTime.ltb (a b : DateTime) : Bool :=
  Date.ltb a.date b.date ||
    (a.date == b.date &&
      (a.hour < b.hour ||
        (a.hour == b.hour &&
          (a.minute < b.minute ||
            (a.minute == b.minute && a.second < b.second)))))

/-- Python `dt - timedelta(days=1)`: the calendar date moves back one day,
the time of day is kept; overflows at the minimum date exactly as `date`
subtraction does. -/
def DateTime.subDay (t : DateTime) : Except PyErr DateTime :=
  match Date.subDay t.date with
  | .error err => .error err
  | .ok d => .ok ⟨d, t.hour, t.minute, t.second⟩

/-- Python `str(datetime)`: `YYYY-MM-DD HH:MM:SS` (space separator, zero
microseconds omitted). -/
def DateTime.toStr (t : DateTime) : String :=
  String.mk (pad4 t.date.year ++ '-' :: pad2 t.date.month ++ '-' :: pad2 t.date.day
    ++ ' ' :: pad2 t.hour ++ ':' :: pad2 t.minute ++ ':' :: pad2 t.second)

/-- Time-of-day part of `datetime.fromisoformat`: accepts `HH:MM` and
`HH:MM:SS`, validating field ranges. -/
def parseTimeChars (cs : List Char) : Option (Nat × Nat × Nat) :=
  match cs with
  | [h1, h2, c1, m1, m2] =>
    if h1.isDigit ∧ h2.isDigit ∧ c1 = ':' ∧ m1.isDigit ∧ m2.isDigit then
      let h := digitVal h1 * 10 + digitVal h2
      let m := digitVal m1 * 10 + digitVal m2
      if h ≤ 23 ∧ m ≤ 59 then some (h, m, 0) else none
    else none
  | [h1, h2, c1, m1, m2, c2, s1, s2] =>
    if h1.isDigit ∧ h2.isDigit ∧ c1 = ':' ∧ m1.isDigit ∧ m2.isDigit ∧
        c2 = ':' ∧ s1.isDigit ∧ s2.isDigit then
      let h := digitVal h1 * 10 + digitVal h2
      let m := digitVal m1 * 10 + digitVal m2
      let s := digitVal s1 * 10 + digitVal s2
      if h ≤ 23 ∧ m ≤ 59 ∧ s ≤ 59 then some (h, m, s) else none
    else none
  | _ => none

/-- Python `datetime.fromisoformat`: a 10-character `YYYY-MM-DD` date part,
optionally followed by a `T` or space separator and a time of day; a missing
time is midnight. Raises `ValueError` on anything else. -/
def datetime_fromisoformat (s : String) : Except PyErr DateTime :=
  let cs := s.toList
  match date_fromisoformat (String.mk (cs.take 10)) with
  | .error err => .error err
  | .ok d =>
    match cs.drop 10 with
    | [] => .ok ⟨d, 0, 0, 0⟩
    | sep :: rest =>
      if sep = 'T' ∨ sep = ' ' then
        match parseTimeChars rest with
        | some (h, m, sec) => .ok ⟨d, h, m, sec⟩
        | none => .error (.valueError ("Invalid isoformat string: " ++ s))
      else .error (.valueError ("Invalid isoformat string: " ++ s))

/-- Resolution of `end` in `_format_datetimes`:
`datetime.fromisoformat(end_datetime) if end_datetime else datetime.today()`.
The default for an absent (or empty, by truthiness) argument is `now`, the
injected current local date-time — date plus current time of day. -/
def resolveEndDT (now : DateTime) (end_datetime : Option String) : Except PyErr DateTime :=
  match end_datetime with
  | some str => if str = "" then .ok now else datetime_fromisoformat str
  | none => .ok now

/-- Resolution of `start` in `_format_datetimes`:
`datetime.fromisoformat(start_datetime) if start_datetime else end - timedelta(days=1)`. -/
def resolveStartDT (e : DateTime) (start_datetime : Option String) : Except PyErr DateTime :=
  match start_datetime with
  | some str => if str = "" then DateTime.subDay e else datetime_fromisoformat str
  | none => DateTime.subDay e

/-- `OuraClient._format_datetimes`, with `datetime.today()` made an explicit
`now` argument. Same shape as `_format_dates`, over date-times. -/
def _format_datetimes (now : DateTime) (start_datetime end_datetime : Option String) :
    Except PyErr (String × String) :=
  match resolveEndDT now end_datetime with
  | .error err => .error err
  | .ok e =>
    match resolveStartDT e start_datetime with
    | .error err => .error err
    | .ok s =>
      if DateTime.ltb e s then
        .error (.valueError
          ("Start datetime greater than end datetime: " ++ s.toStr ++ " > " ++ e.toStr))
      else .ok (s.toStr, e.toStr)

/-- Modelled from the spec: a variant of `_format_datetimes` whose default for
an absent `end` is "the current local calendar date" (the spec's words) — the
calendar date of `now` at midnight — rather than the full current date-time.
Used only to compare the spec's description against the code's behavior. -/
def _format_datetimes_specDefault (now : DateTime) (start_datetime end_datetime : Option String) :
    Except PyErr (String × String) :=
  match (match end_datetime with
         | some str => if str = "" then .ok (⟨now.date, 0, 0, 0⟩ : DateTime)
                       else datetime_fromisoformat str
         | none => .ok (⟨now.date, 0, 0, 0⟩ : DateTime) :
          Except PyErr DateTime) with
  | .error err => .error err
  | .ok e =>
    match resolveStartDT e start_datetime with
    | .error err => .error err
    | .ok s =>
      if DateTime.ltb e s then
        .error (.valueError
          ("Start datetime greater than end datetime: " ++ s.toStr ++ " > " ++ e.toStr))
      else .ok (s.toStr, e.toStr)

/-- The `next_token` field of a page response: a JSON object field can be
absent entirely, hold `null`, or hold a string. Python's
`response["next_token"]` raises `KeyError` in the absent case. -/
inductive TokenField where
  | absent
  | null
  | str (s : String)
deriving Repr, DecidableEq

/-- One page of a paginated response body: `{"data": [...], "next_token": ...}`. -/
structure Page (α : Type) where
  data : List α
  next_token : TokenField
deriving Repr, DecidableEq

/-- Query-parameter map, as an insertion-ordered association list (Python dict
of string keys and values). -/
abbrev Params := List (String × String)

/-- Python `params[k] = v` on a dict: replace the value if the key is present
(keeping its position), otherwise append the pair. -/
def setParam : Params → String → String → Params
  | [], k, v => [(k, v)]
  | (k', v') :: rest, k, v =>
    if k' = k then (k, v) :: rest else (k', v') :: setParam rest k v

/-- `OuraClient._make_paginated_request`. The mock transport is a list of
responses: the `i`-th call to `_make_request` yields the `i`-th element
(either a page or a raised transport error). The while loop's accumulator is
rendered as recursive concatenation; the function also returns the log of the
parameter maps each request was issued with. Each step appends
`response["data"]`, then evaluates `response["next_token"]` (a `KeyError` if
the field is absent aborts the whole call, discarding the local accumulator);
a truthy token is written into `params` and the loop repeats, a falsy one
(`null` or the empty string) stops the loop. -/
def _make_paginated_request {α : Type} :
    List (Except PyErr (Page α)) → Params → Except PyErr (List α × List Params)
  | [], _ => .error (.transportFailure "mock transport exhausted")
  | resp :: rest, params =>
    match resp with
    | .error e => .error e
    | .ok page =>
      match page.next_token with
      | .absent => .error (.keyError "next_token")
      | .null => .ok (page.data, [params])
      | .str tok =>
        if tok = "" then .ok (page.data, [params])
        else
          match _make_paginated_request rest (setParam params "next_token" tok) with
          | .error e => .error e
          | .ok (ds, log) => .ok (page.data ++ ds, params :: log)

/-- Truthiness of a token value as the walrus test in the loop sees it. -/
def truthyTok : TokenField → Bool
  | .str s => s != ""
  | _ => false

/-- A well-formed mock page sequence matching claim C1's hypothesis: at least
one page, every page before the last carries a non-empty string token, and
the last page's token is `null`. -/
def goodChain {α : Type} : List (Page α) → Bool
  | [] => false
  | [p] => match p.next_token with | .null => true | _ => false
  | p :: q :: rest =>
    (match p.next_token with | .str s => s != "" | _ => false) && goodChain (q :: rest)

/-- Python truthiness of an optional-string argument (`if document_id:`):
`None` and the empty string are falsy. -/
def truthyOptStr : Option String → Bool
  | none => false
  | some s => s != ""

/-- The request an endpoint method decides to issue: a single
`_make_request` fetch or a `_make_paginated_request` loop, with a URL slug
and the query-parameter map handed to the transport (empty when the source
passes no `params` keyword). -/
inductive FetchPlan where
  | single (url_slug : String) (params : Params)
  | paginated (url_slug : String) (params : Params)
deriving Repr, DecidableEq

/-- `OuraClient.get_daily_sleep` up to the choice of request: formats the
dates first (any `ValueError` propagates before anything else happens), then
short-circuits to a single non-paginated document fetch with no query
parameters when `document_id` is truthy, else paginates over the collection
with the formatted dates as query parameters. -/
def get_daily_sleep (today : Date) (start_date end_date document_id : Option String) :
    Except PyErr FetchPlan :=
  match _format_dates today start_date end_date with
  | .error e => .error e
  | .ok (start, end_) =>
    if truthyOptStr document_id then
      .ok (.single ("v2/usercollection/daily_sleep/" ++ document_id.getD "") [])
    else
      .ok (.paginated "v2/usercollection/daily_sleep"
        [("start_date", start), ("end_date", end_)])

/-- `OuraClient.get_enhanced_tag` up to the choice of request: identical in
shape to `get_daily_sleep`, except that the `document_id` branch calls
`_make_paginated_request` (not `_make_request`) on the document URL, still
with no query parameters. -/
def get_enhanced_tag (today : Date) (start_date end_date document_id : Option String) :
    Except PyErr FetchPlan :=
  match _format_dates today start_date end_date with
  | .error e => .error e
  | .ok (start, end_) =>
    if truthyOptStr document_id then
      .ok (.paginated ("v2/usercollection/enhanced_tag/" ++ document_id.getD "") [])
    else
      .ok (.paginated "v2/usercollection/enhanced_tag"
        [("start_date", start), ("end_date", end_)])

/-- Mutable state of a `requests.Session` as far as this client touches it:
its header map and whether it has been closed. -/
structure Session where
  headers : Params
  closed : Bool
deriving Repr, DecidableEq

/-- The `OuraClient` object state: the stored personal access token and the
session. -/
structure OuraClient where
  personal_access_token : String
  session : Session
deriving Repr, DecidableEq

/-- `OuraClient.__init__`: store the token and create a session whose headers
carry `Authorization: Bearer <token>`. -/
def OuraClient.init (personal_access_token : String) : OuraClient :=
  { personal_access_token := personal_access_token
    session :=
      { headers := setParam [] "Authorization" ("Bearer " ++ personal_access_token)
        closed := false } }

/-- State-threaded `get_daily_sleep`: the method body reads `self` (the
session, in `_make_request`) but contains no assignment to `self` or to the
session's fields, so the client state it returns is the one it received. -/
def OuraClient.get_daily_sleep (c : OuraClient) (today : Date)
    (start_date end_date document_id : Option String) :
    OuraClient × Except PyErr FetchPlan :=
  (c, OuraRing.get_daily_sleep today start_date end_date document_id)

/-- State-threaded `get_enhanced_tag`; see `OuraClient.get_daily_sleep`. -/
def OuraClient.get_enhanced_tag (c : OuraClient) (today : Date)
    (start_date end_date document_id : Option String) :
    OuraClient × Except PyErr FetchPlan :=
  (c, OuraRing.get_enhanced_tag today start_date end_date document_id)

/-- Value of a key in a parameter / header map (first occurrence). -/
def lookupParam : Params → String → Option String
  | [], _ => none
  | (k', v) :: rest, k => if k' = k then some v else lookupParam rest k

theorem digitChar_isDigit {k : Nat} (hk : k < 10) : (Nat.digitChar k).isDigit = true := by
  interval_cases k <;> decide

theorem digitVal_digitChar {k : Nat} (hk : k < 10) : digitVal (Nat.digitChar k) = k := by
  interval_cases k <;> decide

theorem digits4_reconstruct {y : Nat} (h : y ≤ 9999) :
    ((y / 1000 % 10 * 10 + y / 100 % 10) * 10 + y / 10 % 10) * 10 + y % 10 = y := by
  omega

theorem digits2_reconstruct {m : Nat} (h : m ≤ 99) :
    m / 10 % 10 * 10 + m % 10 = m := by
  omega

theorem daysInMonth_le (y m : Nat) : daysInMonth y m ≤ 31 := by
  unfold daysInMonth
  split_ifs <;> simp

theorem toIso_roundtrip {d : Date} (hd : d.Valid) : date_fromisoformat d.toIso = .ok d := by
  obtain ⟨y, m, dd⟩ := d
  simp only [Date.Valid] at hd
  obtain ⟨hy1, hy2, hm1, hm2, hdd1, hdd2⟩ := hd
  have hm99 : m ≤ 99 := by omega
  have hdd99 : dd ≤ 99 := by
    have h31 := daysInMonth_le y m
    omega
  have t1 : y / 1000 % 10 < 10 := Nat.mod_lt _ (by norm_num)
  have t2 : y / 100 % 10 < 10 := Nat.mod_lt _ (by norm_num)
  have t3 : y / 10 % 10 < 10 := Nat.mod_lt _ (by norm_num)
  have t4 : y % 10 < 10 := Nat.mod_lt _ (by norm_num)
  have t5 : m / 10 % 10 < 10 := Nat.mod_lt _ (by norm_num)
  have t6 : m % 10 < 10 := Nat.mod_lt _ (by norm_num)
  have t7 : dd / 10 % 10 < 10 := Nat.mod_lt _ (by norm_num)
  have t8 : dd % 10 < 10 := Nat.mod_lt _ (by norm_num)
  unfold Date.toIso pad4 pad2
  unfold date_fromisoformat
  simp only [List.cons_append, List.nil_append, String.toList]
  rw [if_pos]
  · have e1 := digitVal_digitChar t1
    have e2 := digitVal_digitChar t2
    have e3 := digitVal_digitChar t3
    have e4 := digitVal_digitChar t4
    have e5 := digitVal_digitChar t5
    have e6 := digitVal_digitChar t6
    have e7 := digitVal_digitChar t7
    have e8 := digitVal_digitChar t8
    rw [e1, e2, e3, e4, e5, e6, e7, e8]
    rw [digits4_reconstruct hy2, digits2_reconstruct hm99, digits2_reconstruct hdd99]
    unfold mkDate
    rw [if_pos]
    exact ⟨hy1, hy2, hm1, hm2, hdd1, hdd2⟩
  · exact ⟨digitChar_isDigit t1, digitChar_isDigit t2, digitChar_isDigit t3,
      digitChar_isDigit t4, trivial, digitChar_isDigit t5, digitChar_isDigit t6, trivial,
      digitChar_isDigit t7, digitChar_isDigit t8⟩

theorem date_ltb_asymm {a b : Date} (h : Date.ltb a b = true) : Date.ltb b a = false := by
  obtain ⟨ya, ma, da⟩ := a
  obtain ⟨yb, mb, db⟩ := b
  simp only [Date.ltb, Bool.or_eq_true, Bool.and_eq_true, decide_eq_true_eq, beq_iff_eq,
    Bool.or_eq_false_iff, Bool.and_eq_false_iff, decide_eq_false_iff_not, beq_eq_false_iff_ne,
    ne_eq] at h ⊢
  omega

theorem date_subDay_ltb {d d' : Date} (h : Date.subDay d = .ok d') : Date.ltb d' d = true := by
  obtain ⟨y, m, dd⟩ := d
  unfold Date.subDay at h
  split_ifs at h with h1 h2 h3 <;>
    simp only [Except.ok.injEq, reduceCtorEq] at h
  · subst h
    dsimp only at h1
    simp [Date.ltb]
    omega
  · subst h
    dsimp only at h1 h2
    simp [Date.ltb]
    omega
  · subst h
    dsimp only at h1 h2 h3
    simp [Date.ltb]
    omega

theorem datetime_ltb_asymm {a b : DateTime} (h : DateTime.ltb a b = true) :
    DateTime.ltb b a = false := by
  obtain ⟨⟨ya, ma, da⟩, ha, mia, sa⟩ := a
  obtain ⟨⟨yb, mb, db⟩, hb, mib, sb⟩ := b
  simp only [DateTime.ltb, Date.ltb, Bool.or_eq_true, Bool.and_eq_true, decide_eq_true_eq,
    beq_iff_eq, Bool.or_eq_false_iff, Bool.and_eq_false_iff, decide_eq_false_iff_not,
    beq_eq_false_iff_ne, ne_eq, Date.mk.injEq] at h ⊢
  omega

theorem datetime_subDay_ltb {t t' : DateTime} (h : DateTime.subDay t = .ok t') :
    DateTime.ltb t' t = true := by
  obtain ⟨d, hh, mm, ss⟩ := t
  unfold DateTime.subDay at h
  dsimp only at h
  cases hsub : Date.subDay d with
  | error e => rw [hsub] at h; cases h
  | ok d2 =>
    rw [hsub] at h
    simp only [Except.ok.injEq] at h
    subst h
    have hlt := date_subDay_ltb hsub
    simp only [DateTime.ltb, hlt, Bool.true_or]

theorem toIso_ne_empty (d : Date) : d.toIso ≠ "" := by
  unfold Date.toIso pad4 pad2
  intro h
  simp only [String.ext_iff, List.cons_append, List.nil_append] at h
  cases h

theorem setParam_mem (ps : Params) (k v : String) : (k, v) ∈ setParam ps k v := by
  induction ps with
  | nil => simp [setParam]
  | cons kv rest ih =>
    obtain ⟨k', v'⟩ := kv
    by_cases hk : k' = k
    · simp [setParam, hk]
    · simp only [setParam, if_neg hk, List.mem_cons]
      exact Or.inr ih

theorem Date.subDay_error {d : Date} {err : PyErr} (h : Date.subDay d = .error err) :
    err = .overflowError "date value out of range" := by
  unfold Date.subDay at h
  split_ifs at h
  simp_all

theorem date_fromisoformat_error {s : String} {err : PyErr}
    (h : date_fromisoformat s = .error err) : ∃ m, err = .valueError m := by
  unfold date_fromisoformat mkDate at h
  repeat' split at h
  all_goals simp only [Except.error.injEq, reduceCtorEq] at h
  all_goals exact ⟨_, h.symm⟩

theorem resolveEnd_error {today : Date} {ed : Option String} {err : PyErr}
    (h : resolveEnd today ed = .error err) :
    ∃ es, ed = some es ∧ es ≠ "" ∧ date_fromisoformat es = .error err := by
  cases ed with
  | none => simp [resolveEnd] at h
  | some es =>
    by_cases he : es = ""
    · subst he
      simp [resolveEnd] at h
    · refine ⟨es, rfl, he, ?_⟩
      simpa [resolveEnd, he] using h

theorem resolveStart_error {e : Date} {sd : Option String} {err : PyErr}
    (h : resolveStart e sd = .error err) :
    (∃ ss, sd = some ss ∧ ss ≠ "" ∧ date_fromisoformat ss = .error err) ∨
      err = .overflowError "date value out of range" := by
  cases sd with
  | none => exact Or.inr (Date.subDay_error h)
  | some ss =>
    by_cases he : ss = ""
    · subst he
      have hsub : Date.subDay e = .error err := by simpa [resolveStart] using h
      exact Or.inr (Date.subDay_error hsub)
    · refine Or.inl ⟨ss, rfl, he, ?_⟩
      simpa [resolveStart, he] using h

/-- C2: with an injected fixed `today`, `_format_dates` maps an absent pair to
`(today − 1 day, today)`; an absent start to `(end − 1 day, end)` for every
parsed end; and an absent end to `(start, today)` for every parsed
start ≤ today. The `Date.subDay` hypotheses state that the claimed value
"− 1 day" exists (Python raises `OverflowError` below `0001-01-01`, where the
claimed result does not denote). -/
theorem format_dates_defaults (today : Date) :
    (∀ y, Date.subDay today = .ok y →
      _format_dates today none none = .ok (y.toIso, today.toIso)) ∧
    (∀ es e y, es ≠ "" → date_fromisoformat es = .ok e → Date.subDay e = .ok y →
      _format_dates today none (some es) = .ok (y.toIso, e.toIso)) ∧
    (∀ ss s, ss ≠ "" → date_fromisoformat ss = .ok s → Date.ltb today s = false →
      _format_dates today (some ss) none = .ok (s.toIso, today.toIso)) := by
  refine ⟨?_, ?_, ?_⟩
  · intro y hy
    have hlt : Date.ltb today y = false := date_ltb_asymm (date_subDay_ltb hy)
    simp [_format_dates, resolveEnd, resolveStart, hy, hlt]
  · intro es e y hes hee hy
    have hlt : Date.ltb e y = false := date_ltb_asymm (date_subDay_ltb hy)
    simp [_format_dates, resolveEnd, resolveStart, hes, hee, hy, hlt]
  · intro ss s hss hs hlt
    simp [_format_dates, resolveEnd, resolveStart, hss, hs, hlt]

/-- Witness for C2 at today = 2022-07-14. -/
theorem format_dates_defaults_witness :
    _format_dates ⟨2022, 7, 14⟩ none none = .ok ("2022-07-13", "2022-07-14") ∧
    _format_dates ⟨2022, 7, 14⟩ none (some "2022-03-01") =
      .ok ("2022-02-28", "2022-03-01") ∧
    _format_dates ⟨2022, 7, 14⟩ (some "2022-07-01") none =
      .ok ("2022-07-01", "2022-07-14") := by
  obtain ⟨h1, h2, h3⟩ := format_dates_defaults ⟨2022, 7, 14⟩
  refine ⟨?_, ?_, ?_⟩
  · exact (h1 ⟨2022, 7, 13⟩ rfl).trans rfl
  · exact (h2 "2022-03-01" ⟨2022, 3, 1⟩ ⟨2022, 2, 28⟩ (by decide) rfl rfl).trans rfl
  · exact (h3 "2022-07-01" ⟨2022, 7, 1⟩ (by decide) rfl (by decide)).trans rfl

/-- C9: the date normalizer is the identity on every pair of canonical
`YYYY-MM-DD` strings of valid dates with start ≤ end (and hence idempotent:
its outputs are such canonical strings). -/
theorem format_dates_canonical_identity (today d1 d2 : Date)
    (h1 : d1.Valid) (h2 : d2.Valid) (hle : Date.ltb d2 d1 = false) :
    _format_dates today (some d1.toIso) (some d2.toIso) = .ok (d1.toIso, d2.toIso) := by
  simp [_format_dates, resolveEnd, resolveStart, toIso_ne_empty, toIso_roundtrip h1,
    toIso_roundtrip h2, hle]

/-- Witness for C9 at a concrete canonical pair. -/
theorem format_dates_canonical_identity_witness :
    _format_dates ⟨2022, 7, 14⟩ (some "2021-02-28") (some "2021-03-01") =
      .ok ("2021-02-28", "2021-03-01") := by
  have h := format_dates_canonical_identity ⟨2022, 7, 14⟩ ⟨2021, 2, 28⟩ ⟨2021, 3, 1⟩
    (by decide) (by decide) (by decide)
  have e1 : Date.toIso ⟨2021, 2, 28⟩ = "2021-02-28" := by decide
  have e2 : Date.toIso ⟨2021, 3, 1⟩ = "2021-03-01" := by decide
  rw [e1, e2] at h
  exact h

theorem format_dates_eval_end_error {today : Date} {sd ed : Option String} {err : PyErr}
    (h : resolveEnd today ed = .error err) : _format_dates today sd ed = .error err := by
  simp [_format_dates, h]

theorem format_dates_eval_start_error {today : Date} {sd ed : Option String} {e : Date}
    {err : PyErr} (he : resolveEnd today ed = .ok e) (h : resolveStart e sd = .error err) :
    _format_dates today sd ed = .error err := by
  simp [_format_dates, he, h]

theorem format_dates_eval_ok {today : Date} {sd ed : Option String} {e s : Date}
    (he : resolveEnd today ed = .ok e) (h : resolveStart e sd = .ok s) :
    _format_dates today sd ed =
      if Date.ltb e s then
        .error (.valueError
          ("Start date greater than end date: " ++ s.toIso ++ " > " ++ e.toIso))
      else .ok (s.toIso, e.toIso) := by
  simp [_format_dates, he, h]

/-- C3 (amended): `_format_dates` fails with a `ValueError` iff a supplied
non-empty argument fails to parse, or both arguments resolve and
start > end (an empty-string argument is treated like an absent one by the
source's truthiness test, and the `end − 1 day` overflow at the minimum date
raises `OverflowError`, not `ValueError`); when start > end the message
carries both values; on success both inputs were resolved and neither was
rejected. -/
theorem format_dates_valueError_iff (today : Date) (sd ed : Option String) :
    ((∃ msg, _format_dates today sd ed = .error (.valueError msg)) ↔
      ((∃ es m, ed = some es ∧ es ≠ "" ∧
          date_fromisoformat es = .error (.valueError m)) ∨
       (∃ e ss m, resolveEnd today ed = .ok e ∧ sd = some ss ∧ ss ≠ "" ∧
          date_fromisoformat ss = .error (.valueError m)) ∨
       (∃ e s, resolveEnd today ed = .ok e ∧ resolveStart e sd = .ok s ∧
          Date.ltb e s = true))) ∧
    (∀ e s, resolveEnd today ed = .ok e → resolveStart e sd = .ok s →
      Date.ltb e s = true →
      _format_dates today sd ed = .error (.valueError
        ("Start date greater than end date: " ++ s.toIso ++ " > " ++ e.toIso))) ∧
    (∀ out, _format_dates today sd ed = .ok out →
      ∃ e s, resolveEnd today ed = .ok e ∧ resolveStart e sd = .ok s ∧
        Date.ltb e s = false ∧ out = (s.toIso, e.toIso)) := by
  refine ⟨⟨?_, ?_⟩, ?_, ?_⟩
  · rintro ⟨msg, hmsg⟩
    cases hre : resolveEnd today ed with
    | error err =>
      rw [format_dates_eval_end_error hre] at hmsg
      simp only [Except.error.injEq] at hmsg
      subst hmsg
      obtain ⟨es, heq, hne, hpe⟩ := resolveEnd_error hre
      exact Or.inl ⟨es, msg, heq, hne, hpe⟩
    | ok e =>
      cases hrs : resolveStart e sd with
      | error err =>
        rw [format_dates_eval_start_error hre hrs] at hmsg
        simp only [Except.error.injEq] at hmsg
        subst hmsg
        rcases resolveStart_error hrs with ⟨ss, heq, hne, hps⟩ | hovf
        · exact Or.inr (Or.inl ⟨e, ss, msg, rfl, heq, hne, hps⟩)
        · cases hovf
      | ok st =>
        rw [format_dates_eval_ok hre hrs] at hmsg
        by_cases hlt : Date.ltb e st = true
        · exact Or.inr (Or.inr ⟨e, st, rfl, hrs, hlt⟩)
        · rw [if_neg (by simpa using hlt)] at hmsg
          cases hmsg
  · rintro (⟨es, m, heq, hne, hpe⟩ | ⟨e, ss, m, hre, heq, hne, hps⟩ | ⟨e, st, hre, hrs, hlt⟩)
    · subst heq
      have hre : resolveEnd today (some es) = .error (.valueError m) := by
        simp [resolveEnd, hne, hpe]
      exact ⟨m, format_dates_eval_end_error hre⟩
    · subst heq
      have hrs : resolveStart e (some ss) = .error (.valueError m) := by
        simp [resolveStart, hne, hps]
      exact ⟨m, format_dates_eval_start_error hre hrs⟩
    · exact ⟨_, (format_dates_eval_ok hre hrs).trans (if_pos hlt)⟩
  · intro e st hre hrs hlt
    exact (format_dates_eval_ok hre hrs).trans (if_pos hlt)
  · intro out hout
    cases hre : resolveEnd today ed with
    | error err =>
      rw [format_dates_eval_end_error hre] at hout
      cases hout
    | ok e =>
      cases hrs : resolveStart e sd with
      | error err =>
        rw [format_dates_eval_start_error hre hrs] at hout
        cases hout
      | ok st =>
        rw [format_dates_eval_ok hre hrs] at hout
        by_cases hlt : Date.ltb e st = true
        · rw [if_pos hlt] at hout
          cases hout
        · rw [if_neg (by simpa using hlt)] at hout
          simp only [Except.ok.injEq] at hout
          exact ⟨e, st, rfl, hrs, by simpa using hlt, hout.symm⟩

/-- Counterexample to C3 as stated: the empty string is a supplied argument
that fails to parse as a date, yet `_format_dates` succeeds, defaulting it
(Python truthiness treats `""` like `None`). -/
theorem format_dates_empty_string_not_rejected :
    _format_dates ⟨2022, 7, 14⟩ none (some "") = .ok ("2022-07-13", "2022-07-14") ∧
    date_fromisoformat "" =
      .error (.valueError "Invalid isoformat string: ") := ⟨rfl, rfl⟩

/-- Witness for C3's amended theorem: a start > end pair fails with the
message carrying both values, and a malformed non-empty end fails. -/
theorem format_dates_valueError_iff_witness :
    _format_dates ⟨2022, 7, 14⟩ (some "2022-07-14") (some "2022-07-01") =
      .error (.valueError "Start date greater than end date: 2022-07-14 > 2022-07-01") ∧
    (∃ msg, _format_dates ⟨2022, 7, 14⟩ none (some "garbage") =
      .error (.valueError msg)) := by
  constructor
  · have h := (format_dates_valueError_iff ⟨2022, 7, 14⟩ (some "2022-07-14")
      (some "2022-07-01")).2.1 ⟨2022, 7, 1⟩ ⟨2022, 7, 14⟩ rfl rfl (by decide)
    exact h.trans rfl
  · exact (format_dates_valueError_iff ⟨2022, 7, 14⟩ none (some "garbage")).1.2
      (Or.inl ⟨"garbage", "Invalid isoformat string: garbage", rfl, by decide, rfl⟩)

/-- Counterexample to C8 as stated: with the injected current date-time at
2022-07-14 12:30:05, the default substituted for an absent `end` is the full
current date-time (`datetime.today()`), not the current local calendar date:
the code's result differs from the spec-modelled calendar-date default. -/
theorem format_datetimes_default_counterexample :
    _format_datetimes ⟨⟨2022, 7, 14⟩, 12, 30, 5⟩ none none =
      .ok ("2022-07-13 12:30:05", "2022-07-14 12:30:05") ∧
    _format_datetimes_specDefault ⟨⟨2022, 7, 14⟩, 12, 30, 5⟩ none none =
      .ok ("2022-07-13 00:00:00", "2022-07-14 00:00:00") ∧
    ("2022-07-14 12:30:05" : String) ≠ "2022-07-14 00:00:00" :=
  ⟨rfl, rfl, by decide⟩

/-- C8 (amended): in `_format_datetimes`, an absent `end` defaults to the
injected current local date-time `now` (date plus current time of day, as
`datetime.today()` yields), an absent `start` defaults to `end − 1 day`
with the time of day kept, and both values are re-serialized with `str()`. -/
theorem format_datetimes_defaults (now : DateTime) :
    (∀ y, DateTime.subDay now = .ok y →
      _format_datetimes now none none = .ok (y.toStr, now.toStr)) ∧
    (∀ es e y, es ≠ "" → datetime_fromisoformat es = .ok e → DateTime.subDay e = .ok y →
      _format_datetimes now none (some es) = .ok (y.toStr, e.toStr)) := by
  constructor
  · intro y hy
    have hlt : DateTime.ltb now y = false := datetime_ltb_asymm (datetime_subDay_ltb hy)
    simp [_format_datetimes, resolveEndDT, resolveStartDT, hy, hlt]
  · intro es e y hes hee hy
    have hlt : DateTime.ltb e y = false := datetime_ltb_asymm (datetime_subDay_ltb hy)
    simp [_format_datetimes, resolveEndDT, resolveStartDT, hes, hee, hy, hlt]

/-- Witness for C8's amended theorem at now = 2022-07-14 12:30:05. -/
theorem format_datetimes_defaults_witness :
    _format_datetimes ⟨⟨2022, 7, 14⟩, 12, 30, 5⟩ none none =
      .ok ("2022-07-13 12:30:05", "2022-07-14 12:30:05") ∧
    _format_datetimes ⟨⟨2022, 7, 14⟩, 12, 30, 5⟩ none (some "2022-03-01T08:15:00") =
      .ok ("2022-02-28 08:15:00", "2022-03-01 08:15:00") := by
  obtain ⟨h1, h2⟩ := format_datetimes_defaults ⟨⟨2022, 7, 14⟩, 12, 30, 5⟩
  constructor
  · exact (h1 ⟨⟨2022, 7, 13⟩, 12, 30, 5⟩ rfl).trans rfl
  · exact (h2 "2022-03-01T08:15:00" ⟨⟨2022, 3, 1⟩, 8, 15, 0⟩ ⟨⟨2022, 2, 28⟩, 8, 15, 0⟩
      (by decide) rfl rfl).trans rfl

theorem make_paginated_cons {α : Type} (p : Page α) (rs : List (Except PyErr (Page α)))
    (params : Params) :
    _make_paginated_request (Except.ok p :: rs) params =
      match p.next_token with
      | .absent => .error (.keyError "next_token")
      | .null => .ok (p.data, [params])
      | .str tok =>
        if tok = "" then .ok (p.data, [params])
        else
          match _make_paginated_request rs (setParam params "next_token" tok) with
          | .error e => .error e
          | .ok (ds, log) => .ok (p.data ++ ds, params :: log) := rfl

/-- C1: for a mock page sequence in which every page before the last carries
a non-empty token and the last page's token is null, the pagination loop
returns the concatenation of the pages' data arrays in page-arrival order,
issues exactly one request per page (the log has one entry per page), the
first request is issued with the caller's parameter map unchanged (so it
carries no `next_token` unless the caller put one there), and every later
request's parameter map contains `next_token` equal to the previous page's
token. -/
theorem paginated_happy {α : Type} (pages : List (Page α)) (params : Params)
    (h : goodChain pages = true) :
    ∃ log, _make_paginated_request (pages.map Except.ok) params =
        .ok ((pages.map Page.data).flatten, log) ∧
      log.length = pages.length ∧
      log.get? 0 = some params ∧
      ∀ i p s, pages.get? i = some p → p.next_token = .str s →
        ∃ q, log.get? (i + 1) = some q ∧ ("next_token", s) ∈ q := by
  induction pages generalizing params with
  | nil => simp [goodChain] at h
  | cons p rest ih =>
    cases rest with
    | nil =>
      cases htok : p.next_token with
      | null =>
        refine ⟨[params], ?_, rfl, rfl, ?_⟩
        · simp [_make_paginated_request, htok]
        · intro i p' s hp hs
          cases i with
          | zero =>
            simp only [List.get?] at hp
            cases hp
            rw [htok] at hs
            cases hs
          | succ j =>
            cases j <;> simp at hp
      | absent => simp [goodChain, htok] at h
      | str s0 => simp [goodChain, htok] at h
    | cons q rest' =>
      have hh : (match p.next_token with
          | .str s => s != ""
          | _ => false) = true ∧ goodChain (q :: rest') = true := by
        simpa [goodChain] using h
      cases htok : p.next_token with
      | null => rw [htok] at hh; simp at hh
      | absent => rw [htok] at hh; simp at hh
      | str s0 =>
        rw [htok] at hh
        have hs0 : ¬ (s0 = "") := by simpa using hh.1
        obtain ⟨log', hres, hlen, hhead, hmem⟩ :=
          ih (setParam params "next_token" s0) hh.2
        refine ⟨params :: log', ?_, ?_, rfl, ?_⟩
        · rw [List.map_cons, make_paginated_cons, htok]
          simp only [if_neg hs0, hres]
          simp
        · simpa using hlen
        · intro i p' s hp hs
          cases i with
          | zero =>
            simp only [List.get?] at hp
            cases hp
            rw [htok] at hs
            cases hs
            refine ⟨setParam params "next_token" s0, ?_, setParam_mem _ _ _⟩
            simpa using hhead
          | succ j =>
            obtain ⟨q', hq', hmm⟩ := hmem j p' s (by simpa using hp) hs
            exact ⟨q', by simpa using hq', hmm⟩

/-- Witness for C1 on the spec's three-page mock sequence. -/
theorem paginated_happy_witness :
    goodChain ([⟨["a", "b"], .str "t1"⟩, ⟨["c"], .str "t2"⟩, ⟨["d"], .null⟩] :
      List (Page String)) = true ∧
    ∃ log, _make_paginated_request
        (([⟨["a", "b"], .str "t1"⟩, ⟨["c"], .str "t2"⟩, ⟨["d"], .null⟩] :
          List (Page String)).map Except.ok)
        [("start_date", "2022-07-13"), ("end_date", "2022-07-14")] =
        .ok (["a", "b", "c", "d"], log) ∧
      log.length = 3 := by
  refine ⟨rfl, ?_⟩
  obtain ⟨log, h1, h2, _, _⟩ := paginated_happy
    ([⟨["a", "b"], .str "t1"⟩, ⟨["c"], .str "t2"⟩, ⟨["d"], .null⟩] : List (Page String))
    [("start_date", "2022-07-13"), ("end_date", "2022-07-14")] rfl
  exact ⟨log, by simpa using h1, h2⟩

/-- C4: if every page fetched so far carried a truthy continuation token and
the next fetch raises, the pagination loop re-raises that error: the result
is the error alone, and the records accumulated from the earlier pages are
not observable by the caller. -/
theorem paginated_failfast {α : Type} (good : List (Page α)) (e : PyErr)
    (rest : List (Except PyErr (Page α))) (params : Params)
    (hgood : good.all (fun p => truthyTok p.next_token) = true) :
    _make_paginated_request (good.map Except.ok ++ Except.error e :: rest) params =
      .error e := by
  induction good generalizing params with
  | nil => simp [_make_paginated_request]
  | cons p gs ih =>
    have hp : truthyTok p.next_token = true ∧ gs.all (fun p => truthyTok p.next_token) = true := by
      simpa using hgood
    cases htok : p.next_token with
    | null => rw [htok] at hp; simp [truthyTok] at hp
    | absent => rw [htok] at hp; simp [truthyTok] at hp
    | str s0 =>
      have hs0 : ¬ (s0 = "") := by
        have := hp.1
        rw [htok] at this
        simpa [truthyTok] using this
      rw [List.map_cons, List.cons_append, make_paginated_cons, htok]
      simp only [if_neg hs0, ih (setParam params "next_token" s0) hp.2]

/-- Witness for C4: the second fetch fails after a first page with a truthy
token; the loop yields the error and no partial data. -/
theorem paginated_failfast_witness :
    _make_paginated_request
      (([⟨["a", "b"], .str "t1"⟩] : List (Page String)).map Except.ok ++
        Except.error (PyErr.transportFailure "boom") :: [])
      [("start_date", "2022-07-13")] = .error (.transportFailure "boom") :=
  paginated_failfast [⟨["a", "b"], .str "t1"⟩] (PyErr.transportFailure "boom") []
    [("start_date", "2022-07-13")] rfl

/-- Counterexample to C6 as stated: a page whose `next_token` field is absent
does not end the loop like a null token does — the lookup
`response["next_token"]` raises `KeyError`, so the call fails instead of
returning the accumulator. -/
theorem paginated_absent_token_keyError :
    _make_paginated_request [Except.ok (⟨["r"], .absent⟩ : Page String)] [] =
      .error (.keyError "next_token") ∧
    _make_paginated_request [Except.ok (⟨["r"], .null⟩ : Page String)] [] =
      .ok (["r"], [[]]) := ⟨rfl, rfl⟩

/-- C6 (amended): a null (or empty-string, by truthiness) token marks the
last page — the loop stops and returns that page's data with no further
request — while an absent token field makes the token lookup raise
`KeyError`, aborting the call. -/
theorem paginated_token_last_page {α : Type} (page : Page α)
    (rest : List (Except PyErr (Page α))) (params : Params) :
    (page.next_token = .null →
      _make_paginated_request (Except.ok page :: rest) params = .ok (page.data, [params])) ∧
    (page.next_token = .str "" →
      _make_paginated_request (Except.ok page :: rest) params = .ok (page.data, [params])) ∧
    (page.next_token = .absent →
      _make_paginated_request (Except.ok page :: rest) params =
        .error (.keyError "next_token")) := by
  refine ⟨?_, ?_, ?_⟩ <;> intro htok <;> simp [_make_paginated_request, htok]

/-- Witness for C6's amended theorem on concrete single-page inputs. -/
theorem paginated_token_last_page_witness :
    _make_paginated_request [Except.ok (⟨["x"], .null⟩ : Page String)]
      [("start_date", "2022-07-13")] = .ok (["x"], [[("start_date", "2022-07-13")]]) ∧
    _make_paginated_request [Except.ok (⟨["x"], .absent⟩ : Page String)]
      [("start_date", "2022-07-13")] = .error (.keyError "next_token") := by
  obtain ⟨h1, _, h3⟩ := paginated_token_last_page (⟨["x"], .null⟩ : Page String) []
    [("start_date", "2022-07-13")]
  obtain ⟨_, _, h6⟩ := paginated_token_last_page (⟨["x"], .absent⟩ : Page String) []
    [("start_date", "2022-07-13")]
  exact ⟨h1 rfl, h6 rfl⟩

/-- Counterexample to C5 as stated: with a documentId supplied,
`get_enhanced_tag` issues a paginated fetch (routing the document URL
through `_make_paginated_request`), not a single non-paginated fetch. -/
theorem enhanced_tag_documentId_paginated :
    get_enhanced_tag ⟨2022, 7, 14⟩ (some "2022-07-01") (some "2022-07-14") (some "abc") =
      .ok (.paginated "v2/usercollection/enhanced_tag/abc" []) ∧
    ¬ ∃ slug ps, get_enhanced_tag ⟨2022, 7, 14⟩ (some "2022-07-01") (some "2022-07-14")
      (some "abc") = .ok (.single slug ps) := by
  constructor
  · rfl
  · rintro ⟨slug, ps, hcontra⟩
    have h2 : (Except.ok (FetchPlan.paginated "v2/usercollection/enhanced_tag/abc" []) :
        Except PyErr FetchPlan) = .ok (.single slug ps) := hcontra
    simp at h2

/-- C5 (amended): when documentId is truthy and the dates format, the
document fetch carries an empty query map (no date keys) regardless of the
supplied dates; `get_daily_sleep` issues it as a single non-paginated
request, while `get_enhanced_tag` alone issues it through the pagination
helper (so its result is a sequence, not a single record). -/
theorem documentId_plans (today : Date) (sd ed did : Option String)
    (hdid : truthyOptStr did = true)
    (fmt : String × String) (hfmt : _format_dates today sd ed = .ok fmt) :
    get_daily_sleep today sd ed did =
      .ok (.single ("v2/usercollection/daily_sleep/" ++ did.getD "") []) ∧
    get_enhanced_tag today sd ed did =
      .ok (.paginated ("v2/usercollection/enhanced_tag/" ++ did.getD "") []) := by
  obtain ⟨fs, fe⟩ := fmt
  constructor
  · simp [get_daily_sleep, hfmt, hdid]
  · simp [get_enhanced_tag, hfmt, hdid]

/-- Witness for C5's amended theorem: dates supplied together with a
documentId; the issued fetches carry no date keys. -/
theorem documentId_plans_witness :
    get_daily_sleep ⟨2022, 7, 14⟩ (some "2022-07-01") (some "2022-07-14") (some "abc") =
      .ok (.single "v2/usercollection/daily_sleep/abc" []) ∧
    get_enhanced_tag ⟨2022, 7, 14⟩ (some "2022-07-01") (some "2022-07-14") (some "abc") =
      .ok (.paginated "v2/usercollection/enhanced_tag/abc" []) := by
  obtain ⟨h1, h2⟩ := documentId_plans ⟨2022, 7, 14⟩ (some "2022-07-01")
    (some "2022-07-14") (some "abc") rfl ("2022-07-01", "2022-07-14") rfl
  exact ⟨h1.trans rfl, h2.trans rfl⟩

/-- C7: the date arguments are formatted (parsed and range-checked) before
the documentId short-circuit; if `_format_dates` raises, the endpoint method
returns that very error and produces no fetch plan at all — no request is
issued — even though a documentId was supplied. -/
theorem dates_checked_before_documentId (today : Date) (sd ed did : Option String)
    (err : PyErr) (h : _format_dates today sd ed = .error err) :
    get_daily_sleep today sd ed did = .error err ∧
    get_enhanced_tag today sd ed did = .error err := by
  constructor
  · simp [get_daily_sleep, h]
  · simp [get_enhanced_tag, h]

/-- Witness for C7: a malformed start date with a documentId supplied still
raises the parse error from the date normalizer, from both methods. -/
theorem dates_checked_before_documentId_witness :
    get_daily_sleep ⟨2022, 7, 14⟩ (some "garbage") none (some "doc-id") =
      .error (.valueError "Invalid isoformat string: garbage") ∧
    get_enhanced_tag ⟨2022, 7, 14⟩ (some "garbage") none (some "doc-id") =
      .error (.valueError "Invalid isoformat string: garbage") :=
  dates_checked_before_documentId ⟨2022, 7, 14⟩ (some "garbage") none (some "doc-id")
    (.valueError "Invalid isoformat string: garbage") rfl

/-- C10: endpoint calls leave the client's state unchanged — the stored
token and the session headers (set once by `__init__` to
`Authorization: Bearer <token>`) are identical before and after any call,
successful or failed — and a repeated call on the (unchanged) client yields
the same result, so no cross-call state influences a later call. The
endpoint bodies in the source contain no assignment to `self` or to the
session, which the state-threaded embedding records. -/
theorem client_state_immutable (c : OuraClient) (tok : String) (today : Date)
    (sd ed did : Option String) :
    (c.get_daily_sleep today sd ed did).1 = c ∧
    (c.get_enhanced_tag today sd ed did).1 = c ∧
    (c.get_daily_sleep today sd ed did).1.session.headers = c.session.headers ∧
    (c.get_daily_sleep today sd ed did).1.personal_access_token =
      c.personal_access_token ∧
    lookupParam (OuraClient.init tok).session.headers "Authorization" =
      some ("Bearer " ++ tok) ∧
    ((c.get_daily_sleep today sd ed did).1.get_daily_sleep today sd ed did).2 =
      (c.get_daily_sleep today sd ed did).2 := by
  refine ⟨rfl, rfl, rfl, rfl, ?_, rfl⟩
  simp [OuraClient.init, setParam, lookupParam]

end OuraRing
